import Mathlib

/-!
Shallow embedding of the disk-savings reporting scripts of this repository
(`gcp_disk_savings_calculator.py`, `new_report.py`,
`gcp_standard_disk_inventory.py`), together with theorems settling the
specification claims about them.

Modelling conventions:
* Python floats are modelled as exact rationals (`ℚ`); Python `round(x, n)`
  is modelled by `pyRound n`, round-half-to-even on the exact value.
* Python dictionaries holding disk records are modelled as structures with
  one field per key the scripts use.
* The Python exception raised by `monthly_savings / current_cost` when
  `current_cost` is zero (`ZeroDivisionError`) is modelled by `Option`:
  `none` is the raised, propagated exception.
* The cloud API responses consumed by `get_ssd_disk_data` are modelled as
  explicit inputs: the list of zones with their disks, and an oracle
  giving the attached-disk info of an instance
  (modelling `compute.instances().get`).
-/

/-- Round-half-to-even of a rational to an integer: models the banker
rounding performed by Python's builtin `round`. -/
def roundHalfEven (x : ℚ) : ℤ :=
  if x - Int.floor x < 1/2 then Int.floor x
  else if 1/2 < x - Int.floor x then Int.floor x + 1
  else if Int.floor x % 2 = 0 then Int.floor x else Int.floor x + 1

/-- Python `round(x, ndigits)` on the idealized exact value. -/
def pyRound (ndigits : ℕ) (x : ℚ) : ℚ :=
  (roundHalfEven (x * (10 : ℚ) ^ ndigits) : ℚ) / (10 : ℚ) ^ ndigits

/-- Prices per GB per month for one region: the `pd-ssd` and `pd-balanced`
entries of one value of the `DISK_PRICES` dictionary. -/
structure DiskPrices where
  pdSsd : ℚ
  pdBalanced : ℚ
deriving DecidableEq

/-- The price table: region-keyed entries plus the always-present
`default` entry (`DISK_PRICES` in `gcp_disk_savings_calculator.py`). -/
structure PriceTable where
  regional : List (String × DiskPrices)
  dflt : DiskPrices
deriving DecidableEq

/-- Models `DISK_PRICES.get(region, DISK_PRICES['default'])`
(line 109 of `gcp_disk_savings_calculator.py`). -/
def PriceTable.get (t : PriceTable) (region : String) : DiskPrices :=
  (t.regional.lookup region).getD t.dflt

/-- The module-level constant `DISK_PRICES` of
`gcp_disk_savings_calculator.py` (lines 11-21). -/
def DISK_PRICES : PriceTable :=
  { regional := [("us-west1", { pdSsd := 17/100, pdBalanced := 1/10 })],
    dflt := { pdSsd := 17/100, pdBalanced := 1/10 } }

/-- Python `s.startswith(p)`, on the underlying character lists. -/
def strStartsWith (s p : String) : Bool := p.data.isPrefixOf s.data

/-- Python `s.endswith(p)`, on the underlying character lists. -/
def strEndsWith (s p : String) : Bool := p.data.isSuffixOf s.data

/-- Python `s.split('/')[-1]`: the substring after the last `/`
(the whole string when no `/` occurs). -/
def lastSlashSeg (s : String) : String :=
  ⟨(s.data.reverse.takeWhile (fun c => c != '/')).reverse⟩

/-- Python `zone[:-2]` (line 54 of `gcp_disk_savings_calculator.py`):
the zone string with its last two characters removed. -/
def regionFromZone (zone : String) : String :=
  ⟨zone.data.take (zone.data.length - 2)⟩

/-- Modelled from the spec's words ("derived deterministically from `zone`
by dropping the trailing `-<letter>` suffix", "the last hyphen-segment
removed"): the zone string with everything from its last `-` on removed.
Used only to compare the code's `regionFromZone` against the claimed
derivation. -/
def removeLastHyphenSegment (zone : String) : String :=
  ⟨((zone.data.reverse.dropWhile (fun c => c != '-')).drop 1).reverse⟩

/-- One disk object of a `compute.disks().list` response, restricted to the
keys `get_ssd_disk_data` reads: `name`, `type` (a URL), `sizeGb`, `users`. -/
structure ApiDisk where
  name : String
  typeUrl : String
  sizeGb : ℕ
  users : List String
deriving DecidableEq

/-- One entry of an instance's `disks` list, restricted to the keys the
boot check reads: `source` and `boot`. -/
structure AttachedDiskInfo where
  source : String
  boot : Bool
deriving DecidableEq

/-- A zone name with the disks `compute.disks().list` returns for it. -/
structure ZoneDisks where
  zone : String
  disks : List ApiDisk
deriving DecidableEq

/-- The dictionary appended to `disk_data` by `get_ssd_disk_data`
(lines 85-93 of `gcp_disk_savings_calculator.py`). -/
structure Disk where
  diskName : String
  diskType : String
  sizeGb : ℕ
  zone : String
  region : String
  attachedTo : String
  isBoot : String
deriving DecidableEq

/-- The boot check of lines 75-78: some attached disk of the instance has a
`source` URL ending in the disk name and `boot` true. -/
def computeIsBoot (instDisks : List AttachedDiskInfo) (diskName : String) : Bool :=
  instDisks.any (fun ad => strEndsWith ad.source diskName && ad.boot)

/-- The record construction of lines 47-93 of
`gcp_disk_savings_calculator.py` for one disk that passed the `pd-ssd`
filter: attachment uses only the first user (the loop breaks), boot status
comes from the instance-lookup oracle. -/
def collectDisk (instOracle : String → String → List AttachedDiskInfo)
    (zone : String) (d : ApiDisk) : Disk :=
  { diskName := d.name
    diskType := lastSlashSeg d.typeUrl
    sizeGb := d.sizeGb
    zone := zone
    region := regionFromZone zone
    attachedTo :=
      match d.users with
      | [] => "Not attached"
      | u :: _ => lastSlashSeg u
    isBoot :=
      match d.users with
      | [] => "No"
      | u :: _ =>
        if computeIsBoot (instOracle zone (lastSlashSeg u)) d.name then "Yes"
        else "No" }

/-- `get_ssd_disk_data` (lines 23-98): keep the zones whose name starts
with `us-west1-`, and in each keep the disks whose type URL ends in
`pd-ssd`, building one `Disk` record per kept disk, in API order. -/
def getSsdDiskData (zones : List ZoneDisks)
    (instOracle : String → String → List AttachedDiskInfo) : List Disk :=
  ((zones.filter (fun z => strStartsWith z.zone "us-west1-")).map
    (fun z =>
      (z.disks.filter
        (fun d => decide (lastSlashSeg d.typeUrl = "pd-ssd"))).map
        (collectDisk instOracle z.zone))).flatten

/-- The dictionary appended to `savings_data` by `calculate_savings`
(lines 118-131 of `gcp_disk_savings_calculator.py`). -/
structure SavingsRecord where
  diskName : String
  diskType : String
  sizeGb : ℕ
  zone : String
  region : String
  attachedTo : String
  isBoot : String
  currentMonthlyCost : ℚ
  balancedMonthlyCost : ℚ
  monthlySavings : ℚ
  annualSavings : ℚ
  savingsPercentage : ℚ
deriving DecidableEq

/-- The loop body of `calculate_savings` (lines 104-131) for one disk.
When `current_cost` is zero, line 130's `monthly_savings / current_cost`
raises `ZeroDivisionError` in Python: modelled as `none`. -/
def calcSavingsStep (prices : PriceTable) (disk : Disk) : Option SavingsRecord :=
  if (disk.sizeGb : ℚ) * (prices.get disk.region).pdSsd = 0 then none
  else some
    { diskName := disk.diskName
      diskType := disk.diskType
      sizeGb := disk.sizeGb
      zone := disk.zone
      region := disk.region
      attachedTo := disk.attachedTo
      isBoot := disk.isBoot
      currentMonthlyCost :=
        pyRound 2 ((disk.sizeGb : ℚ) * (prices.get disk.region).pdSsd)
      balancedMonthlyCost :=
        pyRound 2 ((disk.sizeGb : ℚ) * (prices.get disk.region).pdBalanced)
      monthlySavings :=
        pyRound 2 ((disk.sizeGb : ℚ) * (prices.get disk.region).pdSsd -
          (disk.sizeGb : ℚ) * (prices.get disk.region).pdBalanced)
      annualSavings :=
        pyRound 2 (((disk.sizeGb : ℚ) * (prices.get disk.region).pdSsd -
          (disk.sizeGb : ℚ) * (prices.get disk.region).pdBalanced) * 12)
      savingsPercentage :=
        pyRound 1 (((disk.sizeGb : ℚ) * (prices.get disk.region).pdSsd -
          (disk.sizeGb : ℚ) * (prices.get disk.region).pdBalanced) /
          ((disk.sizeGb : ℚ) * (prices.get disk.region).pdSsd) * 100) }

/-- `calculate_savings` (lines 100-133): the loop over `disk_data`;
a raised `ZeroDivisionError` propagates and aborts the whole call. -/
def calculateSavings (prices : PriceTable) : List Disk → Option (List SavingsRecord)
  | [] => some []
  | d :: ds =>
    match calcSavingsStep prices d with
    | none => none
    | some r =>
      match calculateSavings prices ds with
      | none => none
      | some rs => some (r :: rs)

/-- `calculate_savings` with the traversed input threaded as explicit
state: the loop only reads each input dictionary and appends a freshly
built one to its own accumulator, so each iteration re-emits its input
unchanged; on the raised exception the remaining input is also unchanged. -/
def calcSavingsLoop (prices : PriceTable) :
    List Disk → Option (List SavingsRecord) × List Disk
  | [] => (some [], [])
  | d :: ds =>
    match calcSavingsStep prices d with
    | none => (none, d :: ds)
    | some r =>
      ((calcSavingsLoop prices ds).1.map (fun rs => r :: rs),
        d :: (calcSavingsLoop prices ds).2)

/-- The seven summary metrics computed by `create_excel_report`
(lines 144-150 and 169-177 of `gcp_disk_savings_calculator.py`),
held at the full precision of lines 144-150. -/
structure Summary where
  totalDiskCount : ℕ
  totalDiskSize : ℕ
  totalCurrentCost : ℚ
  totalBalancedCost : ℚ
  totalMonthlySavings : ℚ
  totalAnnualSavings : ℚ
  avgSavingsPct : ℚ
deriving DecidableEq

/-- The summary computation of `create_excel_report` (lines 135-150):
on empty input the function prints and returns `False` before computing
any total (modelled `none`); otherwise the totals are the sums of the
record fields — which `calculate_savings` stored already rounded — and
the average percentage is total-savings over total-cost when the latter
is positive, else `0`. -/
def createExcelReport (data : List SavingsRecord) : Option Summary :=
  if data = [] then none
  else some
    { totalDiskCount := data.length
      totalDiskSize := (data.map (fun r => r.sizeGb)).sum
      totalCurrentCost := (data.map (fun r => r.currentMonthlyCost)).sum
      totalBalancedCost := (data.map (fun r => r.balancedMonthlyCost)).sum
      totalMonthlySavings := (data.map (fun r => r.monthlySavings)).sum
      totalAnnualSavings := (data.map (fun r => r.annualSavings)).sum
      avgSavingsPct :=
        if 0 < (data.map (fun r => r.currentMonthlyCost)).sum then
          (data.map (fun r => r.monthlySavings)).sum /
            (data.map (fun r => r.currentMonthlyCost)).sum * 100
        else 0 }

/-- The unrounded `current_cost` of line 112. -/
def rawCurrentCost (prices : PriceTable) (disk : Disk) : ℚ :=
  (disk.sizeGb : ℚ) * (prices.get disk.region).pdSsd

/-- The unrounded `balanced_cost` of line 113. -/
def rawBalancedCost (prices : PriceTable) (disk : Disk) : ℚ :=
  (disk.sizeGb : ℚ) * (prices.get disk.region).pdBalanced

/-- The unrounded `monthly_savings` of line 114. -/
def rawMonthlySavings (prices : PriceTable) (disk : Disk) : ℚ :=
  rawCurrentCost prices disk - rawBalancedCost prices disk

/-- The unrounded `annual_savings` of line 115. -/
def rawAnnualSavings (prices : PriceTable) (disk : Disk) : ℚ :=
  rawMonthlySavings prices disk * 12

/-- Modelled from the spec's words ("internal computation uses full
floating-point precision", monetary values "rounded ... at presentation
time only"): the presented monthly-savings total as the claim describes
it, the full-precision per-record values summed and rounded once at
presentation. Used only to compare against the code's summary. -/
def specPresentedMonthlyTotal (prices : PriceTable) (disks : List Disk) : ℚ :=
  pyRound 2 ((disks.map (rawMonthlySavings prices)).sum)

/-! ### Helper lemmas -/

lemma roundHalfEven_intCast (k : ℤ) : roundHalfEven (k : ℚ) = k := by
  simp [roundHalfEven]

lemma pyRound_two_eq_self {x : ℚ} {k : ℤ} (h : x * 100 = (k : ℚ)) : pyRound 2 x = x := by
  unfold pyRound
  rw [show ((10 : ℚ) ^ (2 : ℕ)) = 100 by norm_num, h, roundHalfEven_intCast, ← h,
    mul_div_assoc]
  norm_num

lemma disk_prices_get (reg : String) :
    DISK_PRICES.get reg = { pdSsd := 17/100, pdBalanced := 1/10 } := by
  cases hb : (reg == "us-west1") <;>
    simp [PriceTable.get, DISK_PRICES, List.lookup, hb]

lemma calcSavingsStep_of_get (prices : PriceTable) (d : Disk) (p : DiskPrices)
    (hp : prices.get d.region = p) (h0 : (d.sizeGb : ℚ) * p.pdSsd ≠ 0) :
    calcSavingsStep prices d = some
      { diskName := d.diskName
        diskType := d.diskType
        sizeGb := d.sizeGb
        zone := d.zone
        region := d.region
        attachedTo := d.attachedTo
        isBoot := d.isBoot
        currentMonthlyCost := pyRound 2 ((d.sizeGb : ℚ) * p.pdSsd)
        balancedMonthlyCost := pyRound 2 ((d.sizeGb : ℚ) * p.pdBalanced)
        monthlySavings := pyRound 2 ((d.sizeGb : ℚ) * p.pdSsd - (d.sizeGb : ℚ) * p.pdBalanced)
        annualSavings :=
          pyRound 2 (((d.sizeGb : ℚ) * p.pdSsd - (d.sizeGb : ℚ) * p.pdBalanced) * 12)
        savingsPercentage :=
          pyRound 1 (((d.sizeGb : ℚ) * p.pdSsd - (d.sizeGb : ℚ) * p.pdBalanced) /
            ((d.sizeGb : ℚ) * p.pdSsd) * 100) } := by
  unfold calcSavingsStep
  rw [hp, if_neg h0]

/-- Closed form of one `calculate_savings` record under the program's own
price table `DISK_PRICES` (0.17 and 0.10 for every region): with integer
sizes every monetary value has at most two decimal digits, so the
per-record rounding of lines 126-129 is the identity, and the savings
percentage is the constant `41.2` for every non-zero size. -/
def diskPricesRecord (d : Disk) : SavingsRecord :=
  { diskName := d.diskName
    diskType := d.diskType
    sizeGb := d.sizeGb
    zone := d.zone
    region := d.region
    attachedTo := d.attachedTo
    isBoot := d.isBoot
    currentMonthlyCost := (d.sizeGb : ℚ) * (17/100)
    balancedMonthlyCost := (d.sizeGb : ℚ) * (1/10)
    monthlySavings := (d.sizeGb : ℚ) * (7/100)
    annualSavings := (d.sizeGb : ℚ) * (21/25)
    savingsPercentage := 206/5 }

lemma calcSavingsStep_disk_prices (d : Disk) (h : d.sizeGb ≠ 0) :
    calcSavingsStep DISK_PRICES d = some (diskPricesRecord d) := by
  have hn : (d.sizeGb : ℚ) ≠ 0 := Nat.cast_ne_zero.mpr h
  have h0 : (d.sizeGb : ℚ) * (17/100) ≠ 0 := by
    exact mul_ne_zero hn (by norm_num)
  rw [calcSavingsStep_of_get DISK_PRICES d { pdSsd := 17/100, pdBalanced := 1/10 }
    (disk_prices_get d.region) h0]
  have e1 : pyRound 2 ((d.sizeGb : ℚ) * (17/100)) = (d.sizeGb : ℚ) * (17/100) :=
    pyRound_two_eq_self (k := 17 * d.sizeGb) (by push_cast; ring)
  have e2 : pyRound 2 ((d.sizeGb : ℚ) * (1/10)) = (d.sizeGb : ℚ) * (1/10) :=
    pyRound_two_eq_self (k := 10 * d.sizeGb) (by push_cast; ring)
  have em : (d.sizeGb : ℚ) * (17/100) - (d.sizeGb : ℚ) * (1/10) = (d.sizeGb : ℚ) * (7/100) := by
    ring
  have e3 : pyRound 2 ((d.sizeGb : ℚ) * (7/100)) = (d.sizeGb : ℚ) * (7/100) :=
    pyRound_two_eq_self (k := 7 * d.sizeGb) (by push_cast; ring)
  have ea : (d.sizeGb : ℚ) * (7/100) * 12 = (d.sizeGb : ℚ) * (21/25) := by ring
  have e4 : pyRound 2 ((d.sizeGb : ℚ) * (21/25)) = (d.sizeGb : ℚ) * (21/25) :=
    pyRound_two_eq_self (k := 84 * d.sizeGb) (by push_cast; ring)
  have ep : (d.sizeGb : ℚ) * (7/100) / ((d.sizeGb : ℚ) * (17/100)) * 100 = 700/17 := by
    field_simp
    ring
  have e5 : pyRound 1 (700/17 : ℚ) = 206/5 := by
    norm_num [pyRound, roundHalfEven]
  simp only [diskPricesRecord, Option.some.injEq, SavingsRecord.mk.injEq, em, ea, ep,
    e1, e2, e3, e4, e5]

lemma calcSavingsStep_disk_prices_none (d : Disk) (h : d.sizeGb = 0) :
    calcSavingsStep DISK_PRICES d = none := by
  unfold calcSavingsStep
  rw [if_pos]
  rw [disk_prices_get, h]
  norm_num

lemma calcSavingsStep_some_size (d : Disk) (r : SavingsRecord)
    (h : calcSavingsStep DISK_PRICES d = some r) : d.sizeGb ≠ 0 := by
  intro hz
  rw [calcSavingsStep_disk_prices_none d hz] at h
  exact Option.noConfusion h

lemma calculateSavings_disk_prices (l : List Disk) (recs : List SavingsRecord)
    (h : calculateSavings DISK_PRICES l = some recs) :
    recs = l.map diskPricesRecord := by
  induction l generalizing recs with
  | nil =>
    simp only [calculateSavings, Option.some.injEq] at h
    simp [← h]
  | cons d ds ih =>
    cases hd : calcSavingsStep DISK_PRICES d with
    | none => rw [calculateSavings, hd] at h; exact Option.noConfusion h
    | some r =>
      cases hds : calculateSavings DISK_PRICES ds with
      | none => rw [calculateSavings, hd, hds] at h; exact Option.noConfusion h
      | some rs =>
        rw [calculateSavings, hd, hds] at h
        have hr : r = diskPricesRecord d := by
          rw [calcSavingsStep_disk_prices d (calcSavingsStep_some_size d r hd)] at hd
          exact (Option.some.inj hd).symm
        rw [← Option.some.inj h, List.map_cons, hr, ih rs hds]

lemma calculateSavings_getElem? (prices : PriceTable) (l : List Disk)
    (recs : List SavingsRecord) (h : calculateSavings prices l = some recs) (i : ℕ) :
    recs[i]? = (l[i]?).bind (calcSavingsStep prices) := by
  induction l generalizing recs i with
  | nil =>
    simp only [calculateSavings, Option.some.injEq] at h
    simp [← h]
  | cons d ds ih =>
    cases hd : calcSavingsStep prices d with
    | none => rw [calculateSavings, hd] at h; exact Option.noConfusion h
    | some r =>
      cases hds : calculateSavings prices ds with
      | none => rw [calculateSavings, hd, hds] at h; exact Option.noConfusion h
      | some rs =>
        rw [calculateSavings, hd, hds] at h
        rw [← Option.some.inj h]
        cases i with
        | zero => simp [hd]
        | succ j => simpa using ih rs hds j

lemma calcSavingsLoop_state (prices : PriceTable) (l : List Disk) :
    (calcSavingsLoop prices l).2 = l := by
  induction l with
  | nil => rfl
  | cons d ds ih =>
    cases hd : calcSavingsStep prices d <;> simp [calcSavingsLoop, hd, ih]

lemma calcSavingsLoop_out (prices : PriceTable) (l : List Disk) :
    (calcSavingsLoop prices l).1 = calculateSavings prices l := by
  induction l with
  | nil => rfl
  | cons d ds ih =>
    cases hd : calcSavingsStep prices d with
    | none => rw [calcSavingsLoop, calculateSavings, hd]
    | some r =>
      rw [calcSavingsLoop, calculateSavings, hd]
      rw [← ih]
      cases (calcSavingsLoop prices ds).1 <;> rfl

/-! ### Claim C1 -/

/-- The zero-size SSD disk record: the concrete input on which
`calculate_savings` divides by zero. -/
def c1Disk : Disk :=
  { diskName := "zero-disk", diskType := "pd-ssd", sizeGb := 0, zone := "us-west1-a",
    region := "us-west1", attachedTo := "Not attached", isBoot := "No" }

/-- Claim C1 is violated by the code (the spec's guard is the intent, the
code a slip the spec itself flags as a latent defect): for the zero-size
disk, `current_cost` is `0` and line 130 evaluates
`monthly_savings / current_cost` on the zero denominator, raising
`ZeroDivisionError` (modelled `none`) instead of returning a record with
`savingsPercentage = 0`; the exception aborts the whole batch. -/
theorem c1_zero_size_disk_faults :
    calcSavingsStep DISK_PRICES c1Disk = none ∧
    calculateSavings DISK_PRICES [c1Disk] = none := by
  have h := calcSavingsStep_disk_prices_none c1Disk rfl
  exact ⟨h, by rw [calculateSavings, h]⟩

/-! ### Claim C4 -/

/-- Claim C4: every savings record that `calculate_savings` returns (under
the program's price table `DISK_PRICES`) satisfies, in its emitted fields,
`monthlySavings = currentMonthlyCost - balancedMonthlyCost` exactly and
`annualSavings = monthlySavings * 12` exactly. -/
theorem c4_record_identities (d : Disk) (r : SavingsRecord)
    (h : calcSavingsStep DISK_PRICES d = some r) :
    r.monthlySavings = r.currentMonthlyCost - r.balancedMonthlyCost ∧
    r.annualSavings = r.monthlySavings * 12 := by
  rw [calcSavingsStep_disk_prices d (calcSavingsStep_some_size d r h)] at h
  rw [← Option.some.inj h]
  constructor
  · show (d.sizeGb : ℚ) * (7/100) = (d.sizeGb : ℚ) * (17/100) - (d.sizeGb : ℚ) * (1/10)
    ring
  · show (d.sizeGb : ℚ) * (21/25) = (d.sizeGb : ℚ) * (7/100) * 12
    ring

/-- A concrete valid descriptor used to witness claim C4. -/
def c4Disk : Disk :=
  { diskName := "disk-a", diskType := "pd-ssd", sizeGb := 100, zone := "us-west1-b",
    region := "us-west1", attachedTo := "Not attached", isBoot := "No" }

theorem c4_witness :
    (diskPricesRecord c4Disk).monthlySavings =
      (diskPricesRecord c4Disk).currentMonthlyCost -
        (diskPricesRecord c4Disk).balancedMonthlyCost ∧
    (diskPricesRecord c4Disk).annualSavings =
      (diskPricesRecord c4Disk).monthlySavings * 12 :=
  c4_record_identities c4Disk (diskPricesRecord c4Disk)
    (calcSavingsStep_disk_prices c4Disk (by norm_num [c4Disk]))

/-! ### Claim C5 -/

/-- Claim C5: when a descriptor's region is absent from the price table,
`calculate_savings` prices it with the table's `default` entry, for both
the ssd and the balanced price. -/
theorem c5_region_fallback (prices : PriceTable) (d : Disk)
    (hmiss : prices.regional.lookup d.region = none)
    (h0 : (d.sizeGb : ℚ) * prices.dflt.pdSsd ≠ 0) :
    calcSavingsStep prices d = some
      { diskName := d.diskName
        diskType := d.diskType
        sizeGb := d.sizeGb
        zone := d.zone
        region := d.region
        attachedTo := d.attachedTo
        isBoot := d.isBoot
        currentMonthlyCost := pyRound 2 ((d.sizeGb : ℚ) * prices.dflt.pdSsd)
        balancedMonthlyCost := pyRound 2 ((d.sizeGb : ℚ) * prices.dflt.pdBalanced)
        monthlySavings :=
          pyRound 2 ((d.sizeGb : ℚ) * prices.dflt.pdSsd -
            (d.sizeGb : ℚ) * prices.dflt.pdBalanced)
        annualSavings :=
          pyRound 2 (((d.sizeGb : ℚ) * prices.dflt.pdSsd -
            (d.sizeGb : ℚ) * prices.dflt.pdBalanced) * 12)
        savingsPercentage :=
          pyRound 1 (((d.sizeGb : ℚ) * prices.dflt.pdSsd -
            (d.sizeGb : ℚ) * prices.dflt.pdBalanced) /
            ((d.sizeGb : ℚ) * prices.dflt.pdSsd) * 100) } :=
  calcSavingsStep_of_get prices d prices.dflt
    (by simp [PriceTable.get, hmiss]) h0

/-- The spec's fallback example: region `eu-west9`, size 100 GB. -/
def euDisk : Disk :=
  { diskName := "d-eu", diskType := "pd-ssd", sizeGb := 100, zone := "eu-west9-a",
    region := "eu-west9", attachedTo := "Not attached", isBoot := "No" }

theorem c5_witness :
    DISK_PRICES.regional.lookup euDisk.region = none ∧
    calcSavingsStep DISK_PRICES euDisk = some
      { diskName := "d-eu", diskType := "pd-ssd", sizeGb := 100, zone := "eu-west9-a",
        region := "eu-west9", attachedTo := "Not attached", isBoot := "No",
        currentMonthlyCost := 17, balancedMonthlyCost := 10,
        monthlySavings := 7, annualSavings := 84, savingsPercentage := 206/5 } := by
  refine ⟨by decide, ?_⟩
  rw [c5_region_fallback DISK_PRICES euDisk (by decide)
    (by norm_num [euDisk, DISK_PRICES])]
  norm_num [euDisk, DISK_PRICES, pyRound, roundHalfEven]

/-! ### Claim C6 -/

/-- The all-zero summary the claim says `summarize([])` returns. -/
def zeroSummary : Summary :=
  { totalDiskCount := 0, totalDiskSize := 0, totalCurrentCost := 0,
    totalBalancedCost := 0, totalMonthlySavings := 0, totalAnnualSavings := 0,
    avgSavingsPct := 0 }

/-- Claim C6 counterexample: on the empty record list the report step does
not return an all-zero summary — `create_excel_report` prints and returns
`False` (modelled `none`) before any total is computed. -/
theorem c6_counterexample : createExcelReport [] ≠ some zeroSummary := by
  simp [createExcelReport]

/-- Claim C6 amended: on an empty input sequence the report step raises no
fault, but it returns early without computing any summary (source lines
137-139, modelled `none`); it does not produce an all-zero summary. -/
theorem c6_empty_early_return : createExcelReport [] = none := rfl

/-! ### Claim C2 -/

/-- Claim C2: the aggregate savings percentage of the summary block is the
cost-weighted formula `totalMonthlySavings / totalCurrentCost * 100`
(line 150), not an arithmetic mean of per-record percentages and not a
fixed constant. -/
theorem c2_weighted_average (recs : List SavingsRecord) (s : Summary)
    (h : createExcelReport recs = some s) (hpos : 0 < s.totalCurrentCost) :
    s.avgSavingsPct = s.totalMonthlySavings / s.totalCurrentCost * 100 := by
  unfold createExcelReport at h
  by_cases he : recs = []
  · rw [if_pos he] at h
    exact Option.noConfusion h
  · rw [if_neg he] at h
    obtain rfl := Option.some.inj h
    dsimp only at hpos ⊢
    exact if_pos hpos

/-- A concrete savings record used to witness claim C2. -/
def c2Rec : SavingsRecord :=
  { diskName := "r1", diskType := "pd-ssd", sizeGb := 100, zone := "us-west1-a",
    region := "us-west1", attachedTo := "Not attached", isBoot := "No",
    currentMonthlyCost := 17, balancedMonthlyCost := 10, monthlySavings := 7,
    annualSavings := 84, savingsPercentage := 206/5 }

/-- The summary `create_excel_report` computes for `[c2Rec]`. -/
def c2Summary : Summary :=
  { totalDiskCount := 1, totalDiskSize := 100, totalCurrentCost := 17,
    totalBalancedCost := 10, totalMonthlySavings := 7, totalAnnualSavings := 84,
    avgSavingsPct := 700/17 }

theorem c2_witness :
    c2Summary.avgSavingsPct =
      c2Summary.totalMonthlySavings / c2Summary.totalCurrentCost * 100 :=
  c2_weighted_average [c2Rec] c2Summary
    (by norm_num [createExcelReport, c2Rec, c2Summary])
    (by norm_num [c2Summary])

/-! ### Claim C7 -/

/-- Claim C7: the summary step is order-independent — permuting the input
record list leaves all seven summary metrics unchanged, since every total
is a commutative sum and the percentage is derived from two of them. -/
theorem c7_perm_invariant (l1 l2 : List SavingsRecord) (h : l1.Perm l2) :
    createExcelReport l1 = createExcelReport l2 := by
  rcases eq_or_ne l2 [] with rfl | hne
  · rw [h.eq_nil]
  · have hne1 : l1 ≠ [] := by
      intro e
      subst e
      exact hne h.symm.eq_nil
    unfold createExcelReport
    rw [if_neg hne1, if_neg hne]
    have hsz : (l1.map (fun r => r.sizeGb)).sum = (l2.map (fun r => r.sizeGb)).sum :=
      (h.map _).sum_eq
    have hc : (l1.map (fun r => r.currentMonthlyCost)).sum =
        (l2.map (fun r => r.currentMonthlyCost)).sum := (h.map _).sum_eq
    have hb : (l1.map (fun r => r.balancedMonthlyCost)).sum =
        (l2.map (fun r => r.balancedMonthlyCost)).sum := (h.map _).sum_eq
    have hm : (l1.map (fun r => r.monthlySavings)).sum =
        (l2.map (fun r => r.monthlySavings)).sum := (h.map _).sum_eq
    have ha : (l1.map (fun r => r.annualSavings)).sum =
        (l2.map (fun r => r.annualSavings)).sum := (h.map _).sum_eq
    rw [h.length_eq, hsz, hc, hb, hm, ha]

/-- A second concrete savings record, distinct from `c2Rec`, for the C7
witness pair. -/
def c7Rec : SavingsRecord :=
  { diskName := "r2", diskType := "pd-ssd", sizeGb := 50, zone := "us-west1-b",
    region := "us-west1", attachedTo := "vm-1", isBoot := "Yes",
    currentMonthlyCost := 17/2, balancedMonthlyCost := 5, monthlySavings := 7/2,
    annualSavings := 42, savingsPercentage := 206/5 }

theorem c7_witness :
    createExcelReport [c2Rec, c7Rec] = createExcelReport [c7Rec, c2Rec] :=
  c7_perm_invariant [c2Rec, c7Rec] [c7Rec, c2Rec] (List.Perm.swap c7Rec c2Rec [])

/-! ### Claim C3 -/

/-- A price table on which the per-record rounding of lines 126-129 is not
the identity: ssd at 0.004 per GB-month, balanced at 0. -/
def c3Prices : PriceTable :=
  { regional := [], dflt := { pdSsd := 1/250, pdBalanced := 0 } }

/-- A one-GB disk record for the C3 counterexample. -/
def c3Disk : Disk :=
  { diskName := "d1", diskType := "pd-ssd", sizeGb := 1, zone := "us-west1-a",
    region := "us-west1", attachedTo := "Not attached", isBoot := "No" }

/-- The two-disk input for the C3 counterexample. -/
def c3Disks : List Disk := [c3Disk, c3Disk]

/-- The savings record `calculate_savings` builds for `c3Disk` under
`c3Prices`: every monetary field is rounded at construction time, so the
0.004 monthly saving is stored as 0. -/
def c3Rec : SavingsRecord :=
  { diskName := "d1", diskType := "pd-ssd", sizeGb := 1, zone := "us-west1-a",
    region := "us-west1", attachedTo := "Not attached", isBoot := "No",
    currentMonthlyCost := 0, balancedMonthlyCost := 0, monthlySavings := 0,
    annualSavings := 1/20, savingsPercentage := 100 }

lemma c3_step : calcSavingsStep c3Prices c3Disk = some c3Rec := by
  rw [calcSavingsStep_of_get c3Prices c3Disk { pdSsd := 1/250, pdBalanced := 0 } rfl
    (by norm_num [c3Disk])]
  norm_num [c3Disk, c3Rec, pyRound, roundHalfEven]

/-- Claim C3 counterexample: for the two 1-GB disks under `c3Prices`, the
presented monthly-savings total of the code (which sums the per-record
values already rounded at lines 126-129) is 0, while the total the claim
describes (full-precision per-record values summed, rounded once at
presentation) is 0.01 — so the summary is not computed from unrounded
per-record values. -/
theorem c3_counterexample :
    ((calculateSavings c3Prices c3Disks).bind createExcelReport).map
      (fun s => pyRound 2 s.totalMonthlySavings) = some 0 ∧
    specPresentedMonthlyTotal c3Prices c3Disks = 1/100 ∧ (0 : ℚ) ≠ 1/100 := by
  have hcalc : calculateSavings c3Prices c3Disks = some [c3Rec, c3Rec] := by
    simp [c3Disks, calculateSavings, c3_step]
  refine ⟨?_, ?_, by norm_num⟩
  · have hrep : createExcelReport [c3Rec, c3Rec] =
        some { totalDiskCount := 2, totalDiskSize := 2, totalCurrentCost := 0,
               totalBalancedCost := 0, totalMonthlySavings := 0,
               totalAnnualSavings := 1/10, avgSavingsPct := 0 } := by
      unfold createExcelReport
      rw [if_neg (List.cons_ne_nil _ _)]
      norm_num [c3Rec]
    rw [hcalc]
    simp only [Option.some_bind, hrep, Option.map_some]
    norm_num [pyRound, roundHalfEven]
  · norm_num [specPresentedMonthlyTotal, c3Disks, rawMonthlySavings, rawCurrentCost,
      rawBalancedCost, c3Disk, c3Prices, PriceTable.get, pyRound, roundHalfEven]

lemma diskPricesRecord_raw_fields (d : Disk) :
    (diskPricesRecord d).currentMonthlyCost = rawCurrentCost DISK_PRICES d ∧
    (diskPricesRecord d).balancedMonthlyCost = rawBalancedCost DISK_PRICES d ∧
    (diskPricesRecord d).monthlySavings = rawMonthlySavings DISK_PRICES d ∧
    (diskPricesRecord d).annualSavings = rawAnnualSavings DISK_PRICES d := by
  refine ⟨?_, ?_, ?_, ?_⟩ <;>
    simp [diskPricesRecord, rawCurrentCost, rawBalancedCost, rawMonthlySavings,
      rawAnnualSavings, disk_prices_get] <;>
    ring

/-- Claim C3 amended: the summary totals are the sums of the per-record
monetary values as `calculate_savings` stored them, already rounded to two
decimals at record-construction time (lines 126-129); under the program's
own price table `DISK_PRICES` (0.17 and 0.10, integer sizes) that
per-record rounding is the identity, so there the totals do coincide with
the sums of the full-precision per-record values. -/
theorem c3_amended (disks : List Disk) (recs : List SavingsRecord) (s : Summary)
    (h : calculateSavings DISK_PRICES disks = some recs)
    (hs : createExcelReport recs = some s) :
    s.totalCurrentCost = (disks.map (rawCurrentCost DISK_PRICES)).sum ∧
    s.totalBalancedCost = (disks.map (rawBalancedCost DISK_PRICES)).sum ∧
    s.totalMonthlySavings = (disks.map (rawMonthlySavings DISK_PRICES)).sum ∧
    s.totalAnnualSavings = (disks.map (rawAnnualSavings DISK_PRICES)).sum := by
  obtain rfl := calculateSavings_disk_prices disks recs h
  unfold createExcelReport at hs
  by_cases he : disks.map diskPricesRecord = []
  · rw [if_pos he] at hs
    exact Option.noConfusion hs
  · rw [if_neg he] at hs
    obtain rfl := Option.some.inj hs
    dsimp only
    refine ⟨?_, ?_, ?_, ?_⟩ <;>
      rw [List.map_map] <;>
      exact congrArg List.sum (List.map_congr_left (fun d _ => by
        have hf := diskPricesRecord_raw_fields d
        simp only [Function.comp_apply]
        tauto))

/-- A concrete 100-GB disk for the C3 witness. -/
def c3wDisk : Disk :=
  { diskName := "disk-w", diskType := "pd-ssd", sizeGb := 100, zone := "us-west1-c",
    region := "us-west1", attachedTo := "Not attached", isBoot := "No" }

/-- The summary computed for `[diskPricesRecord c3wDisk]`. -/
def c3wSummary : Summary :=
  { totalDiskCount := 1, totalDiskSize := 100, totalCurrentCost := 17,
    totalBalancedCost := 10, totalMonthlySavings := 7, totalAnnualSavings := 84,
    avgSavingsPct := 700/17 }

theorem c3_witness :
    c3wSummary.totalCurrentCost = ([c3wDisk].map (rawCurrentCost DISK_PRICES)).sum ∧
    c3wSummary.totalBalancedCost = ([c3wDisk].map (rawBalancedCost DISK_PRICES)).sum ∧
    c3wSummary.totalMonthlySavings = ([c3wDisk].map (rawMonthlySavings DISK_PRICES)).sum ∧
    c3wSummary.totalAnnualSavings = ([c3wDisk].map (rawAnnualSavings DISK_PRICES)).sum :=
  c3_amended [c3wDisk] [diskPricesRecord c3wDisk] c3wSummary
    (by simp [calculateSavings, calcSavingsStep_disk_prices c3wDisk
      (by norm_num [c3wDisk])])
    (by
      unfold createExcelReport
      rw [if_neg (List.cons_ne_nil _ _)]
      norm_num [diskPricesRecord, c3wDisk, c3wSummary])

/-! ### Claim C8 -/

/-- An instance-lookup oracle for inputs whose disks have no users. -/
def emptyOracle : String → String → List AttachedDiskInfo := fun _ _ => []

/-- An API disk with a two-letter zone suffix for the C8 counterexample. -/
def c8ApiDisk : ApiDisk :=
  { name := "d1", typeUrl := "pd-ssd", sizeGb := 5, users := [] }

/-- A well-formed zones response whose zone name has a two-character
trailing hyphen segment. -/
def c8Zones : List ZoneDisks := [{ zone := "us-west1-ab", disks := [c8ApiDisk] }]

/-- The record the collector produces for `c8Zones`: its region keeps the
trailing hyphen because `zone[:-2]` removed only two characters. -/
def c8BadDisk : Disk :=
  { diskName := "d1", diskType := "pd-ssd", sizeGb := 5, zone := "us-west1-ab",
    region := "us-west1-", attachedTo := "Not attached", isBoot := "No" }

/-- Claim C8 counterexample: for the zone `us-west1-ab` (trailing hyphen
segment of length two) the collector emits a record whose region is
`us-west1-` — `zone[:-2]` — which is not the zone with its last
hyphen-separated segment removed (`us-west1`). -/
theorem c8_counterexample :
    c8BadDisk ∈ getSsdDiskData c8Zones emptyOracle ∧
    removeLastHyphenSegment c8BadDisk.zone = "us-west1" ∧
    c8BadDisk.region ≠ removeLastHyphenSegment c8BadDisk.zone := by
  decide

/-- Claim C8 amended: every record the collector produces has
`region = zone[:-2]` (the zone with its last two characters removed), and
for zones of the spec's well-formed shape `<region>-<letter>` — a
single-character trailing hyphen segment — this coincides with removing
the last hyphen-separated segment. -/
theorem c8_amended :
    (∀ (zs : List ZoneDisks) (o : String → String → List AttachedDiskInfo)
      (d : Disk), d ∈ getSsdDiskData zs o → d.region = regionFromZone d.zone) ∧
    (∀ (p : List Char) (c : Char), c ≠ '-' →
      regionFromZone ⟨p ++ ['-', c]⟩ = ⟨p⟩ ∧
      removeLastHyphenSegment ⟨p ++ ['-', c]⟩ = ⟨p⟩) := by
  constructor
  · intro zs o d hd
    unfold getSsdDiskData at hd
    simp only [List.mem_flatten, List.mem_map, List.mem_filter,
      decide_eq_true_eq] at hd
    obtain ⟨l, ⟨z, hz, rfl⟩, hdl⟩ := hd
    obtain ⟨raw, hraw, rfl⟩ := List.mem_map.mp hdl
    rfl
  · intro p c hc
    constructor
    · apply congrArg String.mk
      show (p ++ ['-', c]).take ((p ++ ['-', c]).length - 2) = p
      simp [List.length_append]
    · apply congrArg String.mk
      have hcb : (c != '-') = true := bne_iff_ne.mpr hc
      show (((p ++ ['-', c]).reverse.dropWhile (fun x => x != '-')).drop 1).reverse = p
      simp [List.reverse_append, List.dropWhile_cons, hcb]

/-- A zones response with a well-formed single-letter zone suffix for the
C8 witness. -/
def c8wZones : List ZoneDisks :=
  [{ zone := "us-west1-a",
     disks := [{ name := "dw", typeUrl := "pd-ssd", sizeGb := 7, users := [] }] }]

/-- The record the collector produces for `c8wZones`. -/
def c8wDisk : Disk :=
  { diskName := "dw", diskType := "pd-ssd", sizeGb := 7, zone := "us-west1-a",
    region := "us-west1", attachedTo := "Not attached", isBoot := "No" }

theorem c8_witness :
    c8wDisk.region = regionFromZone c8wDisk.zone ∧
    regionFromZone ⟨"us-west1".data ++ ['-', 'a']⟩ = "us-west1" ∧
    removeLastHyphenSegment ⟨"us-west1".data ++ ['-', 'a']⟩ = "us-west1" :=
  ⟨c8_amended.1 c8wZones emptyOracle c8wDisk (by decide),
   (c8_amended.2 "us-west1".data 'a' (by decide)).1,
   (c8_amended.2 "us-west1".data 'a' (by decide)).2⟩

/-! ### Claim C9 -/

lemma getSsdDiskData_diskType (zs : List ZoneDisks)
    (o : String → String → List AttachedDiskInfo) (d : Disk)
    (hd : d ∈ getSsdDiskData zs o) : d.diskType = "pd-ssd" := by
  unfold getSsdDiskData at hd
  simp only [List.mem_flatten, List.mem_map, List.mem_filter,
    decide_eq_true_eq] at hd
  obtain ⟨l, ⟨z, hz, rfl⟩, hdl⟩ := hd
  obtain ⟨raw, hraw, rfl⟩ := List.mem_map.mp hdl
  exact of_decide_eq_true (List.mem_filter.mp hraw).2

lemma calcSavingsStep_diskType (prices : PriceTable) (d : Disk) (r : SavingsRecord)
    (h : calcSavingsStep prices d = some r) : r.diskType = d.diskType := by
  unfold calcSavingsStep at h
  by_cases h0 : (d.sizeGb : ℚ) * (prices.get d.region).pdSsd = 0
  · rw [if_pos h0] at h
    exact Option.noConfusion h
  · rw [if_neg h0] at h
    rw [← Option.some.inj h]

/-- Claim C9: every savings record that reaches the report through the
collector-then-calculator pipeline has disk type `pd-ssd` — the collector
filters out every non-SSD disk (line 52) and the calculator copies the
disk type through (line 120). -/
theorem c9_output_all_ssd (zs : List ZoneDisks)
    (o : String → String → List AttachedDiskInfo) (recs : List SavingsRecord)
    (h : calculateSavings DISK_PRICES (getSsdDiskData zs o) = some recs) :
    ∀ r ∈ recs, r.diskType = "pd-ssd" := by
  intro r hr
  obtain ⟨i, hi⟩ := List.mem_iff_getElem?.mp hr
  rw [calculateSavings_getElem? _ _ _ h i] at hi
  cases hl : (getSsdDiskData zs o)[i]? with
  | none => rw [hl] at hi; exact Option.noConfusion hi
  | some d =>
    rw [hl, Option.some_bind] at hi
    rw [calcSavingsStep_diskType _ _ _ hi]
    exact getSsdDiskData_diskType zs o d (List.mem_iff_getElem?.mpr ⟨i, hl⟩)

/-- A zones response for the C9 witness: one SSD disk whose type is given
by a full type URL. -/
def c9Zones : List ZoneDisks :=
  [{ zone := "us-west1-a",
     disks := [{ name := "disk1",
                 typeUrl := "projects/p/zones/us-west1-a/diskTypes/pd-ssd",
                 sizeGb := 10, users := [] }] }]

/-- The record the collector produces for `c9Zones`. -/
def c9Disk : Disk :=
  { diskName := "disk1", diskType := "pd-ssd", sizeGb := 10, zone := "us-west1-a",
    region := "us-west1", attachedTo := "Not attached", isBoot := "No" }

theorem c9_witness : (diskPricesRecord c9Disk).diskType = "pd-ssd" :=
  c9_output_all_ssd c9Zones emptyOracle [diskPricesRecord c9Disk]
    (by
      rw [show getSsdDiskData c9Zones emptyOracle = [c9Disk] from by decide]
      simp [calculateSavings, calcSavingsStep_disk_prices c9Disk (by norm_num [c9Disk])])
    (diskPricesRecord c9Disk) (by simp)

/-! ### Claim C10 -/

lemma calculateSavings_length (prices : PriceTable) (l : List Disk)
    (recs : List SavingsRecord) (h : calculateSavings prices l = some recs) :
    recs.length = l.length := by
  induction l generalizing recs with
  | nil =>
    simp only [calculateSavings, Option.some.injEq] at h
    simp [← h]
  | cons d ds ih =>
    cases hd : calcSavingsStep prices d with
    | none => rw [calculateSavings, hd] at h; exact Option.noConfusion h
    | some r =>
      cases hds : calculateSavings prices ds with
      | none => rw [calculateSavings, hd, hds] at h; exact Option.noConfusion h
      | some rs =>
        rw [calculateSavings, hd, hds] at h
        rw [← Option.some.inj h]
        simp [ih rs hds]

/-- Claim C10: `calculate_savings` only reads its input — threading the
traversed list as explicit state returns it unchanged, whether the loop
completes or aborts on the division exception — and on success the output
consists of one freshly constructed record per input record, in input
order (the i-th output is the record built from the i-th input). -/
theorem c10_frame (prices : PriceTable) (l : List Disk) :
    (calcSavingsLoop prices l).2 = l ∧
    (calcSavingsLoop prices l).1 = calculateSavings prices l ∧
    ∀ recs, calculateSavings prices l = some recs →
      recs.length = l.length ∧
      ∀ i : ℕ, recs[i]? = (l[i]?).bind (calcSavingsStep prices) :=
  ⟨calcSavingsLoop_state prices l, calcSavingsLoop_out prices l,
   fun recs h =>
     ⟨calculateSavings_length prices l recs h,
      calculateSavings_getElem? prices l recs h⟩⟩

/-- A concrete disk for the C10 witness. -/
def c10Disk : Disk :=
  { diskName := "d10", diskType := "pd-ssd", sizeGb := 20, zone := "us-west1-a",
    region := "us-west1", attachedTo := "Not attached", isBoot := "No" }

theorem c10_witness :
    (calcSavingsLoop DISK_PRICES [c10Disk]).2 = [c10Disk] ∧
    ([diskPricesRecord c10Disk] : List SavingsRecord).length = [c10Disk].length ∧
    ([diskPricesRecord c10Disk] : List SavingsRecord)[0]? =
      (([c10Disk] : List Disk)[0]?).bind (calcSavingsStep DISK_PRICES) := by
  have h : calculateSavings DISK_PRICES [c10Disk] = some [diskPricesRecord c10Disk] := by
    simp [calculateSavings, calcSavingsStep_disk_prices c10Disk (by norm_num [c10Disk])]
  obtain ⟨h1, _, h3⟩ := c10_frame DISK_PRICES [c10Disk]
  exact ⟨h1, (h3 _ h).1, (h3 _ h).2 0⟩
